import Mathlib

/-!
Verification of the MQTT dashboard state-synchronization layer
(`src/raspberry-pi/dashboard/app.py`) against its specification.

The embedding models the in-memory store (`current_data`, `data_history`),
the MQTT message handler `on_message`, the history query `get_history`,
and the relay command route `control_relay`.  Python `deque(maxlen=n)`
buffers are modelled as lists with an eviction-on-append operation;
timestamps are abstracted as natural numbers supplied with each message.
-/

namespace Dashboard

/-- Appending to a `collections.deque` with `maxlen = cap`: the new element
goes to the back and the oldest elements are evicted so that the length
never exceeds `cap`. -/
def dequeAppend (cap : Nat) (xs : List α) (x : α) : List α :=
  let ys := xs ++ [x]
  ys.drop (ys.length - cap)

/-- The last `n` elements of a list, in order. -/
def lastN (n : Nat) (xs : List α) : List α :=
  xs.drop (xs.length - n)

/-- Python `str.strip()` on the character list of a payload: drop leading
and trailing whitespace. -/
def pyStrip (cs : List Char) : List Char :=
  ((cs.dropWhile Char.isWhitespace).reverse.dropWhile Char.isWhitespace).reverse

/-- The numeric value of a list of decimal digit characters. -/
def digitsToNat (cs : List Char) : Nat :=
  cs.foldl (fun n c => 10 * n + (c.toNat - 48)) 0

/-- Split a sign character off the front: `-` gives factor `-1`,
an optional `+` gives factor `1`. -/
def splitSign : List Char → Int × List Char
  | '-' :: rest => (-1, rest)
  | '+' :: rest => (1, rest)
  | cs => (1, cs)

/-- Split a character list at every `'.'` (like `str.split('.')`). -/
def splitOnDot : List Char → List (List Char)
  | [] => [[]]
  | c :: rest =>
    let r := splitOnDot rest
    if c = '.' then [] :: r
    else
      match r with
      | [] => [[c]]
      | h :: t => (c :: h) :: t

/-- Parser model of Python `int(payload)`: optional surrounding whitespace,
optional sign, then one or more decimal digits (the underscore-separator
extension of CPython is not modelled; no payload in the spec uses it). -/
def parsePyInt (s : String) : Option Int :=
  let (sgn, ds) := splitSign (pyStrip s.data)
  if ds ≠ [] ∧ ds.all Char.isDigit then
    some (sgn * digitsToNat ds)
  else
    none

/-- Parser model of Python `float(payload)` restricted to plain decimal
literals (optional sign, digits, optional fractional part): exponents,
`inf` and `nan` are not modelled; no payload in the spec uses them.
The value is kept exact as a rational. -/
def parsePyFloat (s : String) : Option ℚ :=
  let (sgn, ds) := splitSign (pyStrip s.data)
  match splitOnDot ds with
  | [ip, fp] =>
    if (ip ≠ [] ∨ fp ≠ []) ∧ ip.all Char.isDigit ∧ fp.all Char.isDigit then
      some (mkRat (sgn * (digitsToNat ip * 10 ^ fp.length + digitsToNat fp))
        (10 ^ fp.length))
    else
      none
  | [ip] =>
    if ip ≠ [] ∧ ip.all Char.isDigit then
      some (mkRat (sgn * digitsToNat ip) 1)
    else
      none
  | _ => none

/-- Python `str.upper()` (ASCII case mapping suffices for the payloads in
scope). -/
def pyUpper (s : String) : String :=
  String.mk (s.data.map Char.toUpper)

/-- Python `str.lower()` (ASCII case mapping suffices for the payloads in
scope). -/
def pyLower (s : String) : String :=
  String.mk (s.data.map Char.toLower)

/-- The shared in-memory store: `current_data` and `data_history` of
`app.py`.  `last_update` holds the (abstract) timestamp of the formatted
`"%Y-%m-%d %H:%M:%S"` string, `none` standing for Python `None`. -/
structure Store where
  temperature : ℚ
  humidity : ℚ
  soil_moisture : Int
  relay_status : String
  status : String
  last_update : Option Nat
  hist_temperature : List ℚ
  hist_humidity : List ℚ
  hist_soil_moisture : List Int
  hist_timestamps : List Nat
  deriving Repr, DecidableEq

/-- The initial store: `current_data` / `data_history` at module load. -/
def initStore : Store :=
  { temperature := 0
    humidity := 0
    soil_moisture := 0
    relay_status := "OFF"
    status := "offline"
    last_update := none
    hist_temperature := []
    hist_humidity := []
    hist_soil_moisture := []
    hist_timestamps := [] }

/-- The `on_message` MQTT callback of `app.py`, for history capacity `cap`
(`HISTORY_SIZE`).  A `ValueError` raised by `float`/`int` parsing aborts
the handler before any mutation, so a parse failure leaves the store
unchanged; every message that reaches the end of the `with` block (all
non-raising messages, known topic or not) refreshes `last_update`. -/
def onMessage (cap : Nat) (s : Store) (topic payload : String) (ts : Nat) : Store :=
  if topic = "sensor/temperature" then
    match parsePyFloat payload with
    | none => s
    | some v =>
      { s with
        temperature := v
        hist_temperature := dequeAppend cap s.hist_temperature v
        hist_timestamps := dequeAppend cap s.hist_timestamps ts
        last_update := some ts }
  else if topic = "sensor/humidity" then
    match parsePyFloat payload with
    | none => s
    | some v =>
      { s with
        humidity := v
        hist_humidity := dequeAppend cap s.hist_humidity v
        last_update := some ts }
  else if topic = "sensor/soil_moisture" then
    match parsePyInt payload with
    | none => s
    | some v =>
      let hist' := dequeAppend cap s.hist_soil_moisture v
      let tss :=
        if s.hist_timestamps.length < hist'.length then
          dequeAppend cap s.hist_timestamps ts
        else s.hist_timestamps
      { s with
        soil_moisture := v
        hist_soil_moisture := hist'
        hist_timestamps := tss
        last_update := some ts }
  else if topic = "actuator/relay_status" then
    { s with relay_status := pyUpper payload, last_update := some ts }
  else if topic = "sensor/status" then
    { s with status := payload, last_update := some ts }
  else
    { s with last_update := some ts }

/-- Deliver a sequence of messages `(topic, payload, timestamp)` in order. -/
def runMessages (cap : Nat) (s : Store) : List (String × String × Nat) → Store
  | [] => s
  | (t, p, ts) :: rest => runMessages cap (onMessage cap s t p ts) rest

/-- The `/api/history` route `get_history`: snapshot of the four history
arrays (temperature, humidity, soil moisture, timestamps). -/
def get_history (s : Store) : List ℚ × List ℚ × List Int × List Nat :=
  (s.hist_temperature, s.hist_humidity, s.hist_soil_moisture, s.hist_timestamps)

/-- The configured history capacity (`MAX_HISTORY_SIZE` in `config.py`,
also the fallback default in `app.py`). -/
def MAX_HISTORY_SIZE : Nat := 100

/-- The outcome of the `/api/relay/control` route: outbound MQTT publishes
`(topic, payload, qos)`, the HTTP status code, and the JSON response
(`ok = true` for `\x7bstatus: success, command\x7d`, `ok = false` for the
error body). -/
structure RelayResponse where
  publishes : List (String × String × Nat)
  statusCode : Nat
  ok : Bool
  command : Option String
  deriving Repr, DecidableEq

/-- The body of `control_relay` after the command string has been
extracted: normalize to uppercase, accept exactly ON/OFF/AUTO (publishing
the normalized command on `actuator/relay_control` with QoS 1), reject
anything else with HTTP 400 and no publish. -/
def control_relay (cmd : String) : RelayResponse :=
  let command := pyUpper cmd
  if command = "ON" ∨ command = "OFF" ∨ command = "AUTO" then
    { publishes := [("actuator/relay_control", command, 1)]
      statusCode := 200
      ok := true
      command := some command }
  else
    { publishes := [], statusCode := 400, ok := false, command := none }

/-- The POST body of a `/api/relay/control` request: absent, not valid
JSON, or a JSON object with an optional `"command"` string field. -/
inductive RequestBody where
  | absent
  | invalidJson
  | json (command : Option String)
  deriving Repr, DecidableEq

/-- `request.get_json(silent=True) or \x7b\x7d` followed by
`data.get("command", "")`: an absent body, invalid JSON, or a missing
`"command"` key all yield the empty string. -/
def requestCommand : RequestBody → String
  | .absent => ""
  | .invalidJson => ""
  | .json none => ""
  | .json (some c) => c

/-- The full `/api/relay/control` route handler on a request body. -/
def api_relay_control (b : RequestBody) : RelayResponse :=
  control_relay (requestCommand b)

/-! ### Branch-reduction lemmas for `onMessage` -/

theorem onMessage_temperature (cap : Nat) (s : Store) (p : String) (ts : Nat)
    (v : ℚ) (h : parsePyFloat p = some v) :
    onMessage cap s "sensor/temperature" p ts =
      { s with
        temperature := v
        hist_temperature := dequeAppend cap s.hist_temperature v
        hist_timestamps := dequeAppend cap s.hist_timestamps ts
        last_update := some ts } := by
  simp [onMessage, h]

theorem onMessage_humidity (cap : Nat) (s : Store) (p : String) (ts : Nat)
    (v : ℚ) (h : parsePyFloat p = some v) :
    onMessage cap s "sensor/humidity" p ts =
      { s with
        humidity := v
        hist_humidity := dequeAppend cap s.hist_humidity v
        last_update := some ts } := by
  simp [onMessage, h]

theorem onMessage_soil (cap : Nat) (s : Store) (p : String) (ts : Nat)
    (v : Int) (h : parsePyInt p = some v) :
    onMessage cap s "sensor/soil_moisture" p ts =
      { s with
        soil_moisture := v
        hist_soil_moisture := dequeAppend cap s.hist_soil_moisture v
        hist_timestamps :=
          if s.hist_timestamps.length <
              (dequeAppend cap s.hist_soil_moisture v).length then
            dequeAppend cap s.hist_timestamps ts
          else s.hist_timestamps
        last_update := some ts } := by
  simp [onMessage, h]

theorem onMessage_temperature_fail (cap : Nat) (s : Store) (p : String)
    (ts : Nat) (h : parsePyFloat p = none) :
    onMessage cap s "sensor/temperature" p ts = s := by
  simp [onMessage, h]

theorem onMessage_humidity_fail (cap : Nat) (s : Store) (p : String)
    (ts : Nat) (h : parsePyFloat p = none) :
    onMessage cap s "sensor/humidity" p ts = s := by
  simp [onMessage, h]

theorem onMessage_soil_fail (cap : Nat) (s : Store) (p : String)
    (ts : Nat) (h : parsePyInt p = none) :
    onMessage cap s "sensor/soil_moisture" p ts = s := by
  simp [onMessage, h]

theorem onMessage_relay_status (cap : Nat) (s : Store) (p : String) (ts : Nat) :
    onMessage cap s "actuator/relay_status" p ts =
      { s with relay_status := pyUpper p, last_update := some ts } := by
  simp [onMessage]

theorem onMessage_device_status (cap : Nat) (s : Store) (p : String) (ts : Nat) :
    onMessage cap s "sensor/status" p ts =
      { s with status := p, last_update := some ts } := by
  simp [onMessage]

theorem onMessage_unknown (cap : Nat) (s : Store) (topic p : String) (ts : Nat)
    (h1 : topic ≠ "sensor/temperature") (h2 : topic ≠ "sensor/humidity")
    (h3 : topic ≠ "sensor/soil_moisture") (h4 : topic ≠ "actuator/relay_status")
    (h5 : topic ≠ "sensor/status") :
    onMessage cap s topic p ts = { s with last_update := some ts } := by
  simp [onMessage, h1, h2, h3, h4, h5]

/-! ### Bounded-buffer lemmas -/

theorem length_dequeAppend (cap : Nat) (xs : List α) (x : α) :
    (dequeAppend cap xs x).length = min (xs.length + 1) cap := by
  simp [dequeAppend]
  omega

theorem length_lastN (n : Nat) (xs : List α) :
    (lastN n xs).length = min xs.length n := by
  simp [lastN]
  omega

theorem dequeAppend_eq_lastN (cap : Nat) (xs : List α) (x : α) :
    dequeAppend cap xs x = lastN cap (xs ++ [x]) := rfl

theorem lastN_append_of_le (n : Nat) (a b : List α) (h : n ≤ b.length) :
    lastN n (a ++ b) = lastN n b := by
  simp only [lastN, List.length_append]
  rw [show a.length + b.length - n = a.length + (b.length - n) by omega,
    List.drop_append]

theorem lastN_of_le (n : Nat) (xs : List α) (h : xs.length ≤ n) :
    lastN n xs = xs := by
  simp [lastN, Nat.sub_eq_zero_of_le h]

theorem lastN_lastN_append (n : Nat) (xs ys : List α) :
    lastN n (lastN n xs ++ ys) = lastN n (xs ++ ys) := by
  by_cases h : xs.length ≤ n
  · rw [lastN_of_le n xs h]
  · push_neg at h
    have hb : n ≤ (xs.drop (xs.length - n) ++ ys).length := by
      simp only [List.length_append, List.length_drop]
      omega
    conv_rhs =>
      rw [show xs = xs.take (xs.length - n) ++ xs.drop (xs.length - n) from
        (List.take_append_drop _ _).symm]
      rw [List.append_assoc, lastN_append_of_le n _ _ hb]
    rfl

theorem foldl_dequeAppend_lastN (cap : Nat) (vs : List α) :
    ∀ acc : List α,
      vs.foldl (dequeAppend cap) (lastN cap acc) = lastN cap (acc ++ vs) := by
  induction vs with
  | nil => intro acc; simp
  | cons v vs ih =>
    intro acc
    have h1 : dequeAppend cap (lastN cap acc) v = lastN cap (acc ++ [v]) := by
      rw [dequeAppend_eq_lastN, lastN_lastN_append]
    simp only [List.foldl_cons, h1, ih (acc ++ [v])]
    simp

theorem foldl_dequeAppend_nil (cap : Nat) (vs : List α) :
    vs.foldl (dequeAppend cap) [] = lastN cap vs := by
  have h := foldl_dequeAppend_lastN cap vs []
  simpa [lastN] using h

/-! ### History evolution along a single-topic message stream -/

theorem run_temperature_hist (cap : Nat) :
    ∀ (items : List (String × Nat)) (vs : List ℚ) (s : Store),
      items.map (fun i => parsePyFloat i.1) = vs.map some →
      (runMessages cap s
        (items.map fun i => ("sensor/temperature", i.1, i.2))).hist_temperature
        = vs.foldl (dequeAppend cap) s.hist_temperature := by
  intro items
  induction items with
  | nil =>
    intro vs s h
    cases vs with
    | nil => simp [runMessages]
    | cons v vs => simp at h
  | cons i items ih =>
    intro vs s h
    cases vs with
    | nil => simp at h
    | cons v vs =>
      simp only [List.map_cons, List.cons.injEq] at h
      obtain ⟨h1, h2⟩ := h
      simp only [List.map_cons, runMessages, List.foldl_cons]
      rw [onMessage_temperature cap s i.1 i.2 v h1, ih vs _ h2]

theorem run_humidity_hist (cap : Nat) :
    ∀ (items : List (String × Nat)) (vs : List ℚ) (s : Store),
      items.map (fun i => parsePyFloat i.1) = vs.map some →
      (runMessages cap s
        (items.map fun i => ("sensor/humidity", i.1, i.2))).hist_humidity
        = vs.foldl (dequeAppend cap) s.hist_humidity := by
  intro items
  induction items with
  | nil =>
    intro vs s h
    cases vs with
    | nil => simp [runMessages]
    | cons v vs => simp at h
  | cons i items ih =>
    intro vs s h
    cases vs with
    | nil => simp at h
    | cons v vs =>
      simp only [List.map_cons, List.cons.injEq] at h
      obtain ⟨h1, h2⟩ := h
      simp only [List.map_cons, runMessages, List.foldl_cons]
      rw [onMessage_humidity cap s i.1 i.2 v h1, ih vs _ h2]

theorem run_soil_hist (cap : Nat) :
    ∀ (items : List (String × Nat)) (vs : List Int) (s : Store),
      items.map (fun i => parsePyInt i.1) = vs.map some →
      (runMessages cap s
        (items.map fun i => ("sensor/soil_moisture", i.1, i.2))).hist_soil_moisture
        = vs.foldl (dequeAppend cap) s.hist_soil_moisture := by
  intro items
  induction items with
  | nil =>
    intro vs s h
    cases vs with
    | nil => simp [runMessages]
    | cons v vs => simp at h
  | cons i items ih =>
    intro vs s h
    cases vs with
    | nil => simp at h
    | cons v vs =>
      simp only [List.map_cons, List.cons.injEq] at h
      obtain ⟨h1, h2⟩ := h
      simp only [List.map_cons, runMessages, List.foldl_cons]
      rw [onMessage_soil cap s i.1 i.2 v h1, ih vs _ h2]

/-! ### Reachable-state invariant -/

/-- The inductive invariant of the store: the timestamp axis never
under-runs the soil-moisture series, and every history buffer respects
its capacity. -/
def StoreInv (cap : Nat) (s : Store) : Prop :=
  s.hist_soil_moisture.length ≤ s.hist_timestamps.length ∧
  s.hist_temperature.length ≤ cap ∧
  s.hist_humidity.length ≤ cap ∧
  s.hist_soil_moisture.length ≤ cap ∧
  s.hist_timestamps.length ≤ cap

theorem storeInv_init (cap : Nat) : StoreInv cap initStore := by
  simp [StoreInv, initStore]

theorem storeInv_onMessage (cap : Nat) (s : Store) (t p : String) (ts : Nat)
    (h : StoreInv cap s) : StoreInv cap (onMessage cap s t p ts) := by
  obtain ⟨hst, h1, h2, h3, h4⟩ := h
  by_cases e1 : t = "sensor/temperature"
  · subst e1
    cases hp : parsePyFloat p with
    | none =>
      rw [onMessage_temperature_fail cap s p ts hp]
      exact ⟨hst, h1, h2, h3, h4⟩
    | some v =>
      rw [onMessage_temperature cap s p ts v hp]
      simp only [StoreInv, length_dequeAppend]
      omega
  · by_cases e2 : t = "sensor/humidity"
    · subst e2
      cases hp : parsePyFloat p with
      | none =>
        rw [onMessage_humidity_fail cap s p ts hp]
        exact ⟨hst, h1, h2, h3, h4⟩
      | some v =>
        rw [onMessage_humidity cap s p ts v hp]
        simp only [StoreInv, length_dequeAppend]
        omega
    · by_cases e3 : t = "sensor/soil_moisture"
      · subst e3
        cases hp : parsePyInt p with
        | none =>
          rw [onMessage_soil_fail cap s p ts hp]
          exact ⟨hst, h1, h2, h3, h4⟩
        | some v =>
          rw [onMessage_soil cap s p ts v hp]
          simp only [StoreInv, length_dequeAppend]
          split
          · simp only [length_dequeAppend]
            omega
          · omega
      · by_cases e4 : t = "actuator/relay_status"
        · subst e4
          rw [onMessage_relay_status cap s p ts]
          exact ⟨hst, h1, h2, h3, h4⟩
        · by_cases e5 : t = "sensor/status"
          · subst e5
            rw [onMessage_device_status cap s p ts]
            exact ⟨hst, h1, h2, h3, h4⟩
          · rw [onMessage_unknown cap s t p ts e1 e2 e3 e4 e5]
            exact ⟨hst, h1, h2, h3, h4⟩

theorem storeInv_run (cap : Nat) :
    ∀ (msgs : List (String × String × Nat)) (s : Store),
      StoreInv cap s → StoreInv cap (runMessages cap s msgs) := by
  intro msgs
  induction msgs with
  | nil => intro s h; exact h
  | cons m msgs ih =>
    intro s h
    exact ih _ (storeInv_onMessage cap s m.1 m.2.1 m.2.2 h)

/-! ### Claim theorems -/

/-- Claim C1: for every sequence of N successfully parsed numeric updates
to a single metric (temperature, humidity, or soil moisture), the stored
history for that metric has length `min N cap` where `cap` is the history
capacity (`MAX_HISTORY_SIZE`), and its contents are exactly the last
`min N cap` values of the update sequence in arrival order (oldest
evicted first). -/
theorem C1_history_ring_buffer (cap : Nat) :
    (∀ (items : List (String × Nat)) (vs : List ℚ),
      items.map (fun i => parsePyFloat i.1) = vs.map some →
      (runMessages cap initStore
        (items.map fun i => ("sensor/temperature", i.1, i.2))).hist_temperature
        = lastN cap vs ∧
      (runMessages cap initStore
        (items.map fun i => ("sensor/temperature", i.1, i.2))).hist_temperature.length
        = min items.length cap) ∧
    (∀ (items : List (String × Nat)) (vs : List ℚ),
      items.map (fun i => parsePyFloat i.1) = vs.map some →
      (runMessages cap initStore
        (items.map fun i => ("sensor/humidity", i.1, i.2))).hist_humidity
        = lastN cap vs ∧
      (runMessages cap initStore
        (items.map fun i => ("sensor/humidity", i.1, i.2))).hist_humidity.length
        = min items.length cap) ∧
    (∀ (items : List (String × Nat)) (vs : List Int),
      items.map (fun i => parsePyInt i.1) = vs.map some →
      (runMessages cap initStore
        (items.map fun i => ("sensor/soil_moisture", i.1, i.2))).hist_soil_moisture
        = lastN cap vs ∧
      (runMessages cap initStore
        (items.map fun i => ("sensor/soil_moisture", i.1, i.2))).hist_soil_moisture.length
        = min items.length cap) := by
  refine ⟨?_, ?_, ?_⟩
  · intro items vs h
    have hlen : items.length = vs.length := by
      simpa using congrArg List.length h
    have hrun := run_temperature_hist cap items vs initStore h
    rw [show initStore.hist_temperature = ([] : List ℚ) from rfl,
      foldl_dequeAppend_nil] at hrun
    exact ⟨hrun, by rw [hrun, length_lastN]; omega⟩
  · intro items vs h
    have hlen : items.length = vs.length := by
      simpa using congrArg List.length h
    have hrun := run_humidity_hist cap items vs initStore h
    rw [show initStore.hist_humidity = ([] : List ℚ) from rfl,
      foldl_dequeAppend_nil] at hrun
    exact ⟨hrun, by rw [hrun, length_lastN]; omega⟩
  · intro items vs h
    have hlen : items.length = vs.length := by
      simpa using congrArg List.length h
    have hrun := run_soil_hist cap items vs initStore h
    rw [show initStore.hist_soil_moisture = ([] : List Int) from rfl,
      foldl_dequeAppend_nil] at hrun
    exact ⟨hrun, by rw [hrun, length_lastN]; omega⟩

/-- Witness for C1: the spec scenario — capacity 3, temperature updates
`21.0, 21.5, 22.0, 22.5` leave history `[21.5, 22.0, 22.5]`. -/
theorem C1_history_ring_buffer_witness :
    (runMessages 3 initStore
      ([("21.0", 1), ("21.5", 2), ("22.0", 3), ("22.5", 4)].map
        fun i => ("sensor/temperature", i.1, i.2))).hist_temperature
      = [mkRat 43 2, mkRat 22 1, mkRat 45 2] :=
  ((C1_history_ring_buffer 3).1
    [("21.0", 1), ("21.5", 2), ("22.0", 3), ("22.5", 4)]
    [mkRat 21 1, mkRat 43 2, mkRat 22 1, mkRat 45 2] (by decide)).1.trans
    (by decide)

/-- Claim C2: a message on a numeric topic whose payload fails to parse
leaves the whole store unchanged and does not stop later messages; in
particular publishing soil moisture `"abc"` then `"40"` yields current
soil moisture 40 and soil-moisture history `[40]` (length 1). -/
theorem C2_malformed_payload_no_effect (cap : Nat) :
    (∀ (s : Store) (p : String) (ts : Nat), parsePyFloat p = none →
      onMessage cap s "sensor/temperature" p ts = s) ∧
    (∀ (s : Store) (p : String) (ts : Nat), parsePyFloat p = none →
      onMessage cap s "sensor/humidity" p ts = s) ∧
    (∀ (s : Store) (p : String) (ts : Nat), parsePyInt p = none →
      onMessage cap s "sensor/soil_moisture" p ts = s) ∧
    (runMessages 100 initStore
      [("sensor/soil_moisture", "abc", 1),
       ("sensor/soil_moisture", "40", 2)]).soil_moisture = 40 ∧
    (runMessages 100 initStore
      [("sensor/soil_moisture", "abc", 1),
       ("sensor/soil_moisture", "40", 2)]).hist_soil_moisture = [40] := by
  refine ⟨?_, ?_, ?_, by decide, by decide⟩
  · exact fun s p ts h => onMessage_temperature_fail cap s p ts h
  · exact fun s p ts h => onMessage_humidity_fail cap s p ts h
  · exact fun s p ts h => onMessage_soil_fail cap s p ts h

/-- Witness for C2: the malformed payload `"abc"` on each numeric topic
leaves the initial store unchanged. -/
theorem C2_malformed_payload_no_effect_witness :
    onMessage 100 initStore "sensor/temperature" "abc" 1 = initStore ∧
    onMessage 100 initStore "sensor/humidity" "abc" 1 = initStore ∧
    onMessage 100 initStore "sensor/soil_moisture" "abc" 1 = initStore :=
  ⟨(C2_malformed_payload_no_effect 100).1 initStore "abc" 1 (by decide),
   (C2_malformed_payload_no_effect 100).2.1 initStore "abc" 1 (by decide),
   (C2_malformed_payload_no_effect 100).2.2.1 initStore "abc" 1 (by decide)⟩

/-- Claim C3: relay-control dispatch normalizes the command to uppercase,
succeeds exactly on ON/OFF/AUTO with a single QoS-1 publish of the
normalized command on `actuator/relay_control` and a success response
carrying it, and rejects everything else with a validation error and zero
publishes. -/
theorem C3_relay_dispatch (cmd : String) :
    ((control_relay cmd).ok = true ↔
      pyUpper cmd = "ON" ∨ pyUpper cmd = "OFF" ∨ pyUpper cmd = "AUTO") ∧
    ((pyUpper cmd = "ON" ∨ pyUpper cmd = "OFF" ∨ pyUpper cmd = "AUTO") →
      (control_relay cmd).publishes =
        [("actuator/relay_control", pyUpper cmd, 1)] ∧
      (control_relay cmd).statusCode = 200 ∧
      (control_relay cmd).command = some (pyUpper cmd)) ∧
    (¬ (pyUpper cmd = "ON" ∨ pyUpper cmd = "OFF" ∨ pyUpper cmd = "AUTO") →
      (control_relay cmd).publishes = [] ∧
      (control_relay cmd).statusCode = 400 ∧
      (control_relay cmd).ok = false) := by
  by_cases h : pyUpper cmd = "ON" ∨ pyUpper cmd = "OFF" ∨ pyUpper cmd = "AUTO"
  · simp [control_relay, h]
  · simp [control_relay, h]

/-- Witness for C3: the spec scenarios — `"auto"` is accepted, normalized
to `"AUTO"` and published once; `"START"` is rejected with HTTP 400 and
no publish. -/
theorem C3_relay_dispatch_witness :
    (control_relay "auto").publishes = [("actuator/relay_control", "AUTO", 1)] ∧
    (control_relay "auto").command = some "AUTO" ∧
    (control_relay "START").publishes = [] ∧
    (control_relay "START").statusCode = 400 := by
  have h1 := (C3_relay_dispatch "auto").2.1 (by decide)
  have h2 := (C3_relay_dispatch "START").2.2 (by decide)
  exact ⟨h1.1.trans (by decide), h1.2.2.trans (by decide), h2.1, h2.2.1⟩

/-- Claim C4: from the empty initial state the shared timestamp series
never under-runs the soil-moisture history; a parsed temperature update
appends a timestamp unconditionally, a parsed soil-moisture update
appends one exactly when the timestamp series is shorter than the
soil-moisture series after the value append, and no other message touches
the timestamp series. -/
theorem C4_timestamp_axis (cap : Nat) :
    (∀ msgs : List (String × String × Nat),
      (runMessages cap initStore msgs).hist_soil_moisture.length ≤
        (runMessages cap initStore msgs).hist_timestamps.length) ∧
    (∀ (s : Store) (p : String) (ts : Nat) (v : ℚ), parsePyFloat p = some v →
      (onMessage cap s "sensor/temperature" p ts).hist_timestamps =
        dequeAppend cap s.hist_timestamps ts) ∧
    (∀ (s : Store) (p : String) (ts : Nat) (v : Int), parsePyInt p = some v →
      (onMessage cap s "sensor/soil_moisture" p ts).hist_timestamps =
        (if s.hist_timestamps.length <
            (dequeAppend cap s.hist_soil_moisture v).length then
          dequeAppend cap s.hist_timestamps ts
        else s.hist_timestamps)) ∧
    (∀ (s : Store) (topic p : String) (ts : Nat),
      topic ≠ "sensor/temperature" → topic ≠ "sensor/soil_moisture" →
      (onMessage cap s topic p ts).hist_timestamps = s.hist_timestamps) := by
  refine ⟨?_, ?_, ?_, ?_⟩
  · intro msgs
    exact (storeInv_run cap msgs initStore (storeInv_init cap)).1
  · intro s p ts v h
    rw [onMessage_temperature cap s p ts v h]
  · intro s p ts v h
    rw [onMessage_soil cap s p ts v h]
  · intro s topic p ts h1 h3
    by_cases h2 : topic = "sensor/humidity"
    · subst h2
      cases hp : parsePyFloat p with
      | none => rw [onMessage_humidity_fail cap s p ts hp]
      | some v => rw [onMessage_humidity cap s p ts v hp]
    · by_cases h4 : topic = "actuator/relay_status"
      · subst h4
        rw [onMessage_relay_status cap s p ts]
      · by_cases h5 : topic = "sensor/status"
        · subst h5
          rw [onMessage_device_status cap s p ts]
        · rw [onMessage_unknown cap s topic p ts h1 h2 h3 h4 h5]

/-- Witness for C4: concrete instances — a soil-moisture update keeps the
invariant, a temperature update appends a timestamp, a humidity update
does not. -/
theorem C4_timestamp_axis_witness :
    (runMessages 3 initStore
      [("sensor/soil_moisture", "40", 1)]).hist_soil_moisture.length ≤
      (runMessages 3 initStore
        [("sensor/soil_moisture", "40", 1)]).hist_timestamps.length ∧
    (onMessage 3 initStore "sensor/temperature" "21.5" 7).hist_timestamps =
      dequeAppend 3 initStore.hist_timestamps 7 ∧
    (onMessage 3 initStore "sensor/humidity" "50.0" 7).hist_timestamps =
      initStore.hist_timestamps :=
  ⟨(C4_timestamp_axis 3).1 [("sensor/soil_moisture", "40", 1)],
   (C4_timestamp_axis 3).2.1 initStore "21.5" 7 (mkRat 43 2) (by decide),
   (C4_timestamp_axis 3).2.2.2 initStore "sensor/humidity" "50.0" 7
     (by decide) (by decide)⟩

/-- Claim C6: a successfully parsed humidity message changes only the
humidity current value, the humidity history and the last-update field;
the timestamp series, the other metrics' values and histories, and the
relay and device status are untouched. -/
theorem C6_humidity_frame (cap : Nat) (s : Store) (p : String) (ts : Nat)
    (v : ℚ) (h : parsePyFloat p = some v) :
    (onMessage cap s "sensor/humidity" p ts).humidity = v ∧
    (onMessage cap s "sensor/humidity" p ts).hist_humidity =
      dequeAppend cap s.hist_humidity v ∧
    (onMessage cap s "sensor/humidity" p ts).last_update = some ts ∧
    (onMessage cap s "sensor/humidity" p ts).hist_timestamps =
      s.hist_timestamps ∧
    (onMessage cap s "sensor/humidity" p ts).temperature = s.temperature ∧
    (onMessage cap s "sensor/humidity" p ts).soil_moisture = s.soil_moisture ∧
    (onMessage cap s "sensor/humidity" p ts).hist_temperature =
      s.hist_temperature ∧
    (onMessage cap s "sensor/humidity" p ts).hist_soil_moisture =
      s.hist_soil_moisture ∧
    (onMessage cap s "sensor/humidity" p ts).relay_status = s.relay_status ∧
    (onMessage cap s "sensor/humidity" p ts).status = s.status := by
  rw [onMessage_humidity cap s p ts v h]
  exact ⟨rfl, rfl, rfl, rfl, rfl, rfl, rfl, rfl, rfl, rfl⟩

/-- Witness for C6: a concrete humidity update (`"50.0"`) leaves the
timestamp series untouched and stores the parsed value. -/
theorem C6_humidity_frame_witness :
    (onMessage 3 initStore "sensor/humidity" "50.0" 7).humidity =
      mkRat 50 1 ∧
    (onMessage 3 initStore "sensor/humidity" "50.0" 7).hist_timestamps =
      initStore.hist_timestamps ∧
    (onMessage 3 initStore "sensor/humidity" "50.0" 7).hist_temperature =
      initStore.hist_temperature :=
  ⟨(C6_humidity_frame 3 initStore "50.0" 7 (mkRat 50 1) (by decide)).1,
   (C6_humidity_frame 3 initStore "50.0" 7 (mkRat 50 1) (by decide)).2.2.2.1,
   (C6_humidity_frame 3 initStore "50.0" 7 (mkRat 50 1) (by decide)).2.2.2.2.2.2.1⟩

/-- Counterexample for C7: a message on an unrecognized topic does change
the store — `current_data["last_update"]` is assigned outside the
topic dispatch chain, so it is refreshed even for unknown topics. -/
theorem C7_unknown_topic_counterexample :
    (onMessage 100 initStore "other/topic" "x" 5).last_update ≠
      initStore.last_update := by decide

/-- Claim C7 as amended: a message on an unrecognized topic leaves every
current value and every history unchanged, but refreshes the last-update
field. -/
theorem C7_unknown_topic_frame (cap : Nat) (s : Store) (topic p : String)
    (ts : Nat)
    (h1 : topic ≠ "sensor/temperature") (h2 : topic ≠ "sensor/humidity")
    (h3 : topic ≠ "sensor/soil_moisture") (h4 : topic ≠ "actuator/relay_status")
    (h5 : topic ≠ "sensor/status") :
    (onMessage cap s topic p ts).temperature = s.temperature ∧
    (onMessage cap s topic p ts).humidity = s.humidity ∧
    (onMessage cap s topic p ts).soil_moisture = s.soil_moisture ∧
    (onMessage cap s topic p ts).relay_status = s.relay_status ∧
    (onMessage cap s topic p ts).status = s.status ∧
    (onMessage cap s topic p ts).hist_temperature = s.hist_temperature ∧
    (onMessage cap s topic p ts).hist_humidity = s.hist_humidity ∧
    (onMessage cap s topic p ts).hist_soil_moisture = s.hist_soil_moisture ∧
    (onMessage cap s topic p ts).hist_timestamps = s.hist_timestamps ∧
    (onMessage cap s topic p ts).last_update = some ts := by
  rw [onMessage_unknown cap s topic p ts h1 h2 h3 h4 h5]
  exact ⟨rfl, rfl, rfl, rfl, rfl, rfl, rfl, rfl, rfl, rfl⟩

/-- Witness for C7 (amended): the concrete unknown topic `"other/topic"`
leaves values and histories unchanged and sets last-update. -/
theorem C7_unknown_topic_frame_witness :
    (onMessage 100 initStore "other/topic" "x" 5).hist_temperature =
      initStore.hist_temperature ∧
    (onMessage 100 initStore "other/topic" "x" 5).status = initStore.status ∧
    (onMessage 100 initStore "other/topic" "x" 5).last_update = some 5 :=
  ⟨(C7_unknown_topic_frame 100 initStore "other/topic" "x" 5
      (by decide) (by decide) (by decide) (by decide) (by decide)).2.2.2.2.2.1,
   (C7_unknown_topic_frame 100 initStore "other/topic" "x" 5
      (by decide) (by decide) (by decide) (by decide) (by decide)).2.2.2.2.1,
   (C7_unknown_topic_frame 100 initStore "other/topic" "x" 5
      (by decide) (by decide) (by decide) (by decide) (by decide)).2.2.2.2.2.2.2.2.2⟩

/-- Counterexample for C8: a `sensor/status` payload is stored verbatim,
not lowercased — `"ONLINE"` is stored as `"ONLINE"`, not `"online"`. -/
theorem C8_status_case_counterexample :
    (onMessage 100 initStore "sensor/status" "ONLINE" 5).status ≠
      pyLower "ONLINE" := by decide

/-- Claim C8 as amended: a relay-status message stores the payload
normalized to uppercase and a device-status message stores the payload
verbatim (no case normalization); neither appends to any history. -/
theorem C8_status_updates (cap : Nat) (s : Store) (p : String) (ts : Nat) :
    (onMessage cap s "actuator/relay_status" p ts).relay_status = pyUpper p ∧
    (onMessage cap s "sensor/status" p ts).status = p ∧
    (onMessage cap s "actuator/relay_status" p ts).hist_temperature =
      s.hist_temperature ∧
    (onMessage cap s "actuator/relay_status" p ts).hist_humidity =
      s.hist_humidity ∧
    (onMessage cap s "actuator/relay_status" p ts).hist_soil_moisture =
      s.hist_soil_moisture ∧
    (onMessage cap s "actuator/relay_status" p ts).hist_timestamps =
      s.hist_timestamps ∧
    (onMessage cap s "sensor/status" p ts).hist_temperature =
      s.hist_temperature ∧
    (onMessage cap s "sensor/status" p ts).hist_humidity = s.hist_humidity ∧
    (onMessage cap s "sensor/status" p ts).hist_soil_moisture =
      s.hist_soil_moisture ∧
    (onMessage cap s "sensor/status" p ts).hist_timestamps =
      s.hist_timestamps := by
  rw [onMessage_relay_status cap s p ts, onMessage_device_status cap s p ts]
  exact ⟨rfl, rfl, rfl, rfl, rfl, rfl, rfl, rfl, rfl, rfl⟩

/-- Counterexample for C9: after a single temperature update the history
arrays returned by `get_history` have length 1, not `MAX_HISTORY_SIZE`;
the arrays are only bounded by the capacity, not pinned to it. -/
theorem C9_history_capacity_counterexample :
    ¬ ((get_history (runMessages MAX_HISTORY_SIZE initStore
        [("sensor/temperature", "21.5", 1)])).1.length = MAX_HISTORY_SIZE ∧
      (get_history (runMessages MAX_HISTORY_SIZE initStore
        [("sensor/temperature", "21.5", 1)])).2.1.length = MAX_HISTORY_SIZE ∧
      (get_history (runMessages MAX_HISTORY_SIZE initStore
        [("sensor/temperature", "21.5", 1)])).2.2.1.length = MAX_HISTORY_SIZE ∧
      (get_history (runMessages MAX_HISTORY_SIZE initStore
        [("sensor/temperature", "21.5", 1)])).2.2.2.length = MAX_HISTORY_SIZE) := by
  decide

/-- Claim C9 as amended: every call to `get_history` on a reachable store
returns the four arrays (temperature, humidity, soil-moisture, timestamps)
with each length at most the configured capacity bound. -/
theorem C9_history_bounded (cap : Nat) (msgs : List (String × String × Nat)) :
    (get_history (runMessages cap initStore msgs)).1.length ≤ cap ∧
    (get_history (runMessages cap initStore msgs)).2.1.length ≤ cap ∧
    (get_history (runMessages cap initStore msgs)).2.2.1.length ≤ cap ∧
    (get_history (runMessages cap initStore msgs)).2.2.2.length ≤ cap := by
  have h := storeInv_run cap msgs initStore (storeInv_init cap)
  exact ⟨h.2.1, h.2.2.1, h.2.2.2.1, h.2.2.2.2⟩

/-- Claim C10: a POST to `/api/relay/control` with an absent body, an
invalid-JSON body, or a JSON body lacking the `"command"` key is treated
as the empty command and rejected with the HTTP 400 validation error; no
exception escapes and no publish occurs. -/
theorem C10_missing_command (b : RequestBody)
    (h : b = RequestBody.absent ∨ b = RequestBody.invalidJson ∨
      b = RequestBody.json none) :
    requestCommand b = "" ∧
    api_relay_control b = control_relay "" ∧
    (api_relay_control b).statusCode = 400 ∧
    (api_relay_control b).publishes = [] ∧
    (api_relay_control b).ok = false := by
  rcases h with h | h | h <;> subst h <;>
    exact ⟨rfl, rfl, by decide, by decide, by decide⟩

/-- Witness for C10: the absent request body is rejected with HTTP 400 and
no publish. -/
theorem C10_missing_command_witness :
    (api_relay_control RequestBody.absent).statusCode = 400 ∧
    (api_relay_control RequestBody.absent).publishes = [] :=
  ⟨(C10_missing_command RequestBody.absent (Or.inl rfl)).2.2.1,
   (C10_missing_command RequestBody.absent (Or.inl rfl)).2.2.2.1⟩

end Dashboard
